import Mathlib

/-!
Shallow embedding of the two utility modules `utils/auto_git.py` and
`utils/auto_conda.py`.

Each Python function shells out to external commands, prints status lines
and may terminate the process via `sys.exit(1)`.  We model the ambient
environment as an oracle (`World`): the exit code every shell command would
return, the bytes `subprocess.check_output` would capture, which paths
exist, and whether `os.makedirs` would raise an `OSError` for reasons other
than the directory already existing (e.g. permissions).  Running a function
produces the ordered list of observable events (prints, subprocess
invocations, directory creations) together with an `Outcome`: normal
return, process termination with an exit code (`sys.exit`), or an uncaught
exception propagating to the caller.

`backup_project` additionally threads the set of existing directories,
because `os.makedirs(dir, exist_ok=True)` mutates the filesystem; the
`exist_ok` flag is modelled faithfully so that idempotency of directory
creation is a provable property of the code, not an assumption.
-/

/-- Observable events of one call: a line printed to standard output, a
shell command run via `subprocess.run(cmd, shell=True, check=True)`, a
command whose output is captured via `subprocess.check_output`, or a
directory creation via `os.makedirs(dir, exist_ok=True)`. -/
inductive Event where
  | print (s : String)
  | run (cmd : String)
  | checkOutput (cmd : String)
  | makedirs (dir : String)
  deriving DecidableEq, Repr

/-- Outcome of one call: normal return, process termination with the given
exit code (`sys.exit`), or an exception propagating uncaught. -/
inductive Outcome where
  | ret
  | exit (code : Nat)
  | raised
  deriving DecidableEq, Repr

/-- Oracle for the ambient environment: what each external interaction
would do if performed. -/
structure World where
  pathExists : String → Bool
  exitCode : String → Nat
  checkOutputExit : String → Nat
  checkOutputRaw : String → String
  makedirsOSError : String → Bool

/-- String representation of Python's `subprocess.CalledProcessError`, as
interpolated into the diagnostic f-strings. -/
def cpeMessage (cmd : String) (code : Nat) : String :=
  "Command \x27" ++ cmd ++ "\x27 returned non-zero exit status " ++ toString code ++ "."

/-- Commands run via `subprocess.run` in a trace, in order. -/
def runEvents (evs : List Event) : List String :=
  evs.filterMap fun e =>
    match e with
    | Event.run c => some c
    | _ => none

/-- Commands run via `subprocess.check_output` in a trace, in order. -/
def checkOutputEvents (evs : List Event) : List String :=
  evs.filterMap fun e =>
    match e with
    | Event.checkOutput c => some c
    | _ => none

/-- Directories passed to `os.makedirs` in a trace, in order. -/
def makedirsEvents (evs : List Event) : List String :=
  evs.filterMap fun e =>
    match e with
    | Event.makedirs d => some d
    | _ => none

/-- Failure contract of the wrappers: the process terminates with exit
code 1 and a diagnostic line starting with "Fehler" was printed. -/
def failsExit1 (r : List Event × Outcome) : Prop :=
  r.2 = Outcome.exit 1 ∧ ∃ t, Event.print ("Fehler" ++ t) ∈ r.1

/-- Shell command built by `git_push_master`. -/
def pushCmd : String := "git push -u origin master"

/-- Embedding of `git_push_master` (auto_git.py lines 5-15). -/
def git_push_master (w : World) : List Event × Outcome :=
  let pre := [Event.print "Aktualisiere Repository mit \x27git push\x27...",
              Event.run pushCmd]
  if w.exitCode pushCmd = 0 then
    (pre ++ [Event.print "Repository erfolgreich hochgeladen."], Outcome.ret)
  else
    (pre ++ [Event.print ("Fehler beim Git Pull: " ++ cpeMessage pushCmd (w.exitCode pushCmd))],
     Outcome.exit 1)

/-- Shell command built by `git_pull`. -/
def pullCmd : String := "git pull origin master"

/-- Embedding of `git_pull` (auto_git.py lines 18-28). -/
def git_pull (w : World) : List Event × Outcome :=
  let pre := [Event.print "Aktualisiere Repository mit \x27git pull\x27...",
              Event.run pullCmd]
  if w.exitCode pullCmd = 0 then
    (pre ++ [Event.print "Repository erfolgreich aktualisiert."], Outcome.ret)
  else
    (pre ++ [Event.print ("Fehler beim Git Pull: " ++ cpeMessage pullCmd (w.exitCode pullCmd))],
     Outcome.exit 1)

/-- Shell command built by `install_requirements` for a given path. -/
def pipCmd (requirements_file : String) : String :=
  "pip install -r " ++ requirements_file

/-- Embedding of `install_requirements` (auto_git.py lines 31-45). -/
def install_requirements (w : World) (requirements_file : String) : List Event × Outcome :=
  if w.pathExists requirements_file then
    let cmd := pipCmd requirements_file
    let pre := [Event.print ("Installiere Abhängigkeiten aus \x27" ++ requirements_file ++ "\x27..."),
                Event.run cmd]
    if w.exitCode cmd = 0 then
      (pre ++ [Event.print "Abhängigkeiten erfolgreich installiert."], Outcome.ret)
    else
      (pre ++ [Event.print ("Fehler bei der Installation der Abhängigkeiten: " ++
                            cpeMessage cmd (w.exitCode cmd))],
       Outcome.exit 1)
  else
    ([Event.print ("Die Datei \x27" ++ requirements_file ++ "\x27 wurde nicht gefunden.")],
     Outcome.ret)

/-- Shell command built by `git_status`. -/
def statusCmd : String := "git status"

/-- Embedding of `git_status` (auto_git.py lines 48-57). -/
def git_status (w : World) : List Event × Outcome :=
  let pre := [Event.print "Zeige aktuellen Git-Status...", Event.run statusCmd]
  if w.exitCode statusCmd = 0 then
    (pre, Outcome.ret)
  else
    (pre ++ [Event.print ("Fehler beim Anzeigen des Git-Status: " ++
                          cpeMessage statusCmd (w.exitCode statusCmd))],
     Outcome.exit 1)

/-- Semantics of `os.makedirs(d, exist_ok)` on the set of existing
directories: `none` is the `FileExistsError` raised when the directory
exists and `exist_ok` is false; otherwise the updated set. -/
def makedirsFS (exist_ok : Bool) (dirs : List String) (d : String) : Option (List String) :=
  if d ∈ dirs then (if exist_ok then some dirs else none) else some (d :: dirs)

/-- Shell command built by `backup_project`. -/
def cpCmd (backup_dir : String) : String := "cp -r . " ++ backup_dir

/-- Embedding of `backup_project` (auto_git.py lines 60-71).  The set of
existing directories is threaded explicitly; the source calls
`os.makedirs(backup_dir, exist_ok=True)` inside the `try`, but the
`except` clause catches only `subprocess.CalledProcessError`, so any
`OSError` from `makedirs` propagates uncaught. -/
def backup_project (w : World) (dirs : List String) (backup_dir : String) :
    List String × List Event × Outcome :=
  if w.makedirsOSError backup_dir then
    (dirs, [Event.makedirs backup_dir], Outcome.raised)
  else
    match makedirsFS true dirs backup_dir with
    | none => (dirs, [Event.makedirs backup_dir], Outcome.raised)
    | some dirs2 =>
      let cmd := cpCmd backup_dir
      let pre := [Event.makedirs backup_dir, Event.run cmd]
      if w.exitCode cmd = 0 then
        (dirs2, pre ++ [Event.print ("Projekt erfolgreich in \x27" ++ backup_dir ++ "\x27 gesichert.")],
         Outcome.ret)
      else
        (dirs2, pre ++ [Event.print ("Fehler beim Erstellen des Backups: " ++
                                     cpeMessage cmd (w.exitCode cmd))],
         Outcome.exit 1)

/-- Static text printed by `show_help` (auto_git.py lines 74-85). -/
def helpText : String :=
  "\nVerfügbare Funktionen:\n- git_pull(): Führt einen Git-Pull aus.\n- git_push_master(): Führt einen Git-Push auf master branch aus.\n- install_requirements(requirements_file=\x27requirements.txt\x27): Installiert Abhängigkeiten aus requirements.txt.\n- git_status(): Zeigt den Git-Status an.\n- backup_project(backup_dir=\x27backups\x27): Erstellt ein Backup des aktuellen Projekts.\n    "

/-- Embedding of `show_help` (auto_git.py lines 74-85): one print, no
external interaction, so it takes no oracle. -/
def show_help : List Event × Outcome :=
  ([Event.print helpText], Outcome.ret)

/-- Shell pipeline `freeze_conda_environment` uses to resolve the active
environment name when none is given. -/
def infoCmd : String :=
  "conda info --envs | grep \x27*\x27 | awk \x27\x7bprint $1\x7d\x27"

/-- Shell command built by `freeze_conda_environment` for the export. -/
def exportCmd (env_name output_file : String) : String :=
  "conda env export --name " ++ env_name ++ " > " ++ output_file

/-- Branch of `freeze_conda_environment` after the environment name is
known: print, run the export command, and report the result. -/
def freezeWith (w : World) (env_name output_file : String) (pre : List Event) :
    List Event × Outcome :=
  let cmd := exportCmd env_name output_file
  let evs := pre ++ [Event.print ("Speichere Conda-Umgebung \x27" ++ env_name ++
                                  "\x27 in \x27" ++ output_file ++ "\x27..."),
                     Event.run cmd]
  if w.exitCode cmd = 0 then
    (evs ++ [Event.print ("Umgebung erfolgreich in \x27" ++ output_file ++ "\x27 gespeichert.")],
     Outcome.ret)
  else
    (evs ++ [Event.print ("Fehler beim Speichern der Conda-Umgebung: " ++
                          cpeMessage cmd (w.exitCode cmd))],
     Outcome.exit 1)

/-- Embedding of `freeze_conda_environment` (auto_conda.py lines 5-20).
With `env_name = none` the name is resolved by `subprocess.check_output`
on the listing pipeline, decoded and stripped (`String.trim`); a non-zero
exit of that pipeline raises `CalledProcessError` inside the same `try`,
so it is caught by the same handler. -/
def freeze_conda_environment (w : World) (env_name : Option String) (output_file : String) :
    List Event × Outcome :=
  match env_name with
  | some n => freezeWith w n output_file []
  | none =>
    if w.checkOutputExit infoCmd = 0 then
      freezeWith w ((w.checkOutputRaw infoCmd).trim) output_file [Event.checkOutput infoCmd]
    else
      ([Event.checkOutput infoCmd,
        Event.print ("Fehler beim Speichern der Conda-Umgebung: " ++
                     cpeMessage infoCmd (w.checkOutputExit infoCmd))],
       Outcome.exit 1)

/-! Helper lemmas: trace projections on explicit lists, and a builder for
`failsExit1` that splits the leading "Fehler" off a diagnostic message. -/

@[simp] theorem runEvents_nil : runEvents [] = [] := rfl

@[simp] theorem runEvents_print (s : String) (evs : List Event) :
    runEvents (Event.print s :: evs) = runEvents evs := rfl

@[simp] theorem runEvents_run (c : String) (evs : List Event) :
    runEvents (Event.run c :: evs) = c :: runEvents evs := rfl

@[simp] theorem runEvents_checkOutput (c : String) (evs : List Event) :
    runEvents (Event.checkOutput c :: evs) = runEvents evs := rfl

@[simp] theorem runEvents_makedirs (d : String) (evs : List Event) :
    runEvents (Event.makedirs d :: evs) = runEvents evs := rfl

@[simp] theorem checkOutputEvents_nil : checkOutputEvents [] = [] := rfl

@[simp] theorem checkOutputEvents_print (s : String) (evs : List Event) :
    checkOutputEvents (Event.print s :: evs) = checkOutputEvents evs := rfl

@[simp] theorem checkOutputEvents_run (c : String) (evs : List Event) :
    checkOutputEvents (Event.run c :: evs) = checkOutputEvents evs := rfl

@[simp] theorem checkOutputEvents_checkOutput (c : String) (evs : List Event) :
    checkOutputEvents (Event.checkOutput c :: evs) = c :: checkOutputEvents evs := rfl

@[simp] theorem checkOutputEvents_makedirs (d : String) (evs : List Event) :
    checkOutputEvents (Event.makedirs d :: evs) = checkOutputEvents evs := rfl

@[simp] theorem makedirsEvents_nil : makedirsEvents [] = [] := rfl

@[simp] theorem makedirsEvents_print (s : String) (evs : List Event) :
    makedirsEvents (Event.print s :: evs) = makedirsEvents evs := rfl

@[simp] theorem makedirsEvents_run (c : String) (evs : List Event) :
    makedirsEvents (Event.run c :: evs) = makedirsEvents evs := rfl

@[simp] theorem makedirsEvents_checkOutput (c : String) (evs : List Event) :
    makedirsEvents (Event.checkOutput c :: evs) = makedirsEvents evs := rfl

@[simp] theorem makedirsEvents_makedirs (d : String) (evs : List Event) :
    makedirsEvents (Event.makedirs d :: evs) = d :: makedirsEvents evs := rfl

theorem failsExit1_mk (r : List Event × Outcome) (a b m : String)
    (ho : r.2 = Outcome.exit 1)
    (hmem : Event.print (a ++ m) ∈ r.1)
    (hsplit : a = "Fehler" ++ b) :
    failsExit1 r := by
  refine ⟨ho, ⟨b ++ m, ?_⟩⟩
  rw [hsplit, String.append_assoc] at hmem
  exact hmem

/-! Concrete worlds used by the witness theorems. -/

/-- World where every external command succeeds, every path exists and the
active environment resolves to "base". -/
def wAllOK : World where
  pathExists := fun _ => true
  exitCode := fun _ => 0
  checkOutputExit := fun _ => 0
  checkOutputRaw := fun _ => " base\n"
  makedirsOSError := fun _ => false

/-- World where every external command exits with status 1, while paths
exist and directory creation itself succeeds. -/
def wAllFail : World where
  pathExists := fun _ => true
  exitCode := fun _ => 1
  checkOutputExit := fun _ => 1
  checkOutputRaw := fun _ => ""
  makedirsOSError := fun _ => false

/-- World where no path exists. -/
def wMissing : World where
  pathExists := fun _ => false
  exitCode := fun _ => 0
  checkOutputExit := fun _ => 0
  checkOutputRaw := fun _ => ""
  makedirsOSError := fun _ => false

/-- World where `os.makedirs` raises an `OSError` (e.g. permission denied). -/
def wPerm : World where
  pathExists := fun _ => true
  exitCode := fun _ => 0
  checkOutputExit := fun _ => 0
  checkOutputRaw := fun _ => ""
  makedirsOSError := fun _ => true

/-- Claim C1: for every wrapper operation (git_push_master, git_pull,
install_requirements on an existing file, git_status, backup_project,
freeze_conda_environment), a non-zero exit of the underlying external
command leads to a diagnostic line on standard output and process
termination with exit code 1, with no unhandled error. -/
theorem wrappers_fail_exit1 (w : World) (dirs : List String) (f d n out : String)
    (hf : w.pathExists f = true)
    (hm : w.makedirsOSError d = false)
    (h1 : w.exitCode pushCmd ≠ 0)
    (h2 : w.exitCode pullCmd ≠ 0)
    (h3 : w.exitCode (pipCmd f) ≠ 0)
    (h4 : w.exitCode statusCmd ≠ 0)
    (h5 : w.exitCode (cpCmd d) ≠ 0)
    (h6 : w.exitCode (exportCmd n out) ≠ 0) :
    failsExit1 (git_push_master w) ∧ failsExit1 (git_pull w) ∧
    failsExit1 (install_requirements w f) ∧ failsExit1 (git_status w) ∧
    failsExit1 (backup_project w dirs d).2 ∧
    failsExit1 (freeze_conda_environment w (some n) out) := by
  refine ⟨?_, ?_, ?_, ?_, ?_, ?_⟩
  · exact failsExit1_mk _ "Fehler beim Git Pull: " " beim Git Pull: "
      (cpeMessage pushCmd (w.exitCode pushCmd))
      (by simp [git_push_master, h1]) (by simp [git_push_master, h1]) rfl
  · exact failsExit1_mk _ "Fehler beim Git Pull: " " beim Git Pull: "
      (cpeMessage pullCmd (w.exitCode pullCmd))
      (by simp [git_pull, h2]) (by simp [git_pull, h2]) rfl
  · exact failsExit1_mk _ "Fehler bei der Installation der Abhängigkeiten: "
      " bei der Installation der Abhängigkeiten: "
      (cpeMessage (pipCmd f) (w.exitCode (pipCmd f)))
      (by simp [install_requirements, hf, h3]) (by simp [install_requirements, hf, h3]) rfl
  · exact failsExit1_mk _ "Fehler beim Anzeigen des Git-Status: "
      " beim Anzeigen des Git-Status: "
      (cpeMessage statusCmd (w.exitCode statusCmd))
      (by simp [git_status, h4]) (by simp [git_status, h4]) rfl
  · refine failsExit1_mk _ "Fehler beim Erstellen des Backups: "
      " beim Erstellen des Backups: "
      (cpeMessage (cpCmd d) (w.exitCode (cpCmd d))) ?_ ?_ rfl
    · by_cases hd : d ∈ dirs <;> simp [backup_project, makedirsFS, hm, h5, hd]
    · by_cases hd : d ∈ dirs <;> simp [backup_project, makedirsFS, hm, h5, hd]
  · exact failsExit1_mk _ "Fehler beim Speichern der Conda-Umgebung: "
      " beim Speichern der Conda-Umgebung: "
      (cpeMessage (exportCmd n out) (w.exitCode (exportCmd n out)))
      (by simp [freeze_conda_environment, freezeWith, h6])
      (by simp [freeze_conda_environment, freezeWith, h6]) rfl

/-- Witness for claim C1 at a world where every command exits 1. -/
theorem wrappers_fail_exit1_witness :
    failsExit1 (git_push_master wAllFail) ∧ failsExit1 (git_pull wAllFail) ∧
    failsExit1 (install_requirements wAllFail "requirements.txt") ∧
    failsExit1 (git_status wAllFail) ∧
    failsExit1 (backup_project wAllFail [] "backups").2 ∧
    failsExit1 (freeze_conda_environment wAllFail (some "base") "environment.yml") :=
  wrappers_fail_exit1 wAllFail [] "requirements.txt" "backups" "base" "environment.yml"
    rfl rfl (by decide) (by decide) (by decide) (by decide) (by decide) (by decide)

/-- Claim C2: for a path that does not exist, install_requirements prints
the file-not-found message, returns normally (no exit, no exception), and
spawns no subprocess. -/
theorem install_requirements_missing (w : World) (f : String)
    (h : w.pathExists f = false) :
    install_requirements w f =
      ([Event.print ("Die Datei \x27" ++ f ++ "\x27 wurde nicht gefunden.")], Outcome.ret) ∧
    runEvents (install_requirements w f).1 = [] ∧
    checkOutputEvents (install_requirements w f).1 = [] := by
  refine ⟨by simp [install_requirements, h], ?_, ?_⟩ <;>
    simp [install_requirements, h]

/-- Witness for claim C2 at a world where no path exists. -/
theorem install_requirements_missing_witness :
    install_requirements wMissing "missing.txt" =
      ([Event.print ("Die Datei \x27" ++ "missing.txt" ++ "\x27 wurde nicht gefunden.")],
       Outcome.ret) ∧
    runEvents (install_requirements wMissing "missing.txt").1 = [] ∧
    checkOutputEvents (install_requirements wMissing "missing.txt").1 = [] :=
  install_requirements_missing wMissing "missing.txt" rfl

/-- Claim C3: for a path that exists, install_requirements invokes exactly
one external install command, that command references the given path, and
on success a confirmation message is printed. -/
theorem install_requirements_existing (w : World) (f : String)
    (h : w.pathExists f = true) :
    runEvents (install_requirements w f).1 = [pipCmd f] ∧
    (∃ a, pipCmd f = a ++ f) ∧
    (w.exitCode (pipCmd f) = 0 →
      Event.print "Abhängigkeiten erfolgreich installiert." ∈ (install_requirements w f).1) := by
  refine ⟨?_, ⟨"pip install -r ", rfl⟩, ?_⟩
  · by_cases hc : w.exitCode (pipCmd f) = 0 <;> simp [install_requirements, h, hc]
  · intro hc
    simp [install_requirements, h, hc]

/-- Witness for claim C3 at a world where the path exists and pip succeeds. -/
theorem install_requirements_existing_witness :
    runEvents (install_requirements wAllOK "requirements.txt").1 = [pipCmd "requirements.txt"] ∧
    (∃ a, pipCmd "requirements.txt" = a ++ "requirements.txt") ∧
    (wAllOK.exitCode (pipCmd "requirements.txt") = 0 →
      Event.print "Abhängigkeiten erfolgreich installiert." ∈
        (install_requirements wAllOK "requirements.txt").1) :=
  install_requirements_existing wAllOK "requirements.txt" rfl

/-- Claim C4: with an explicit environment name, freeze_conda_environment
never runs the environment-listing command and runs exactly the export
command for that name, whose standard output is redirected to the output
file inside the command string. -/
theorem freeze_explicit_no_query (w : World) (n out : String) :
    checkOutputEvents (freeze_conda_environment w (some n) out).1 = [] ∧
    runEvents (freeze_conda_environment w (some n) out).1 = [exportCmd n out] ∧
    exportCmd n out = "conda env export --name " ++ n ++ " > " ++ out := by
  refine ⟨?_, ?_, rfl⟩ <;>
    (by_cases hc : w.exitCode (exportCmd n out) = 0 <;>
      simp [freeze_conda_environment, freezeWith, hc])

/-- Claim C5: with env_name unset, freeze_conda_environment first runs the
environment-listing pipeline via check_output, takes its stripped output
as the active environment name, and then runs the export command for that
name with standard output redirected to the output file. -/
theorem freeze_default_resolves_active (w : World) (out : String)
    (h : w.checkOutputExit infoCmd = 0) :
    ∃ rest, (freeze_conda_environment w none out).1 =
      Event.checkOutput infoCmd ::
      Event.print ("Speichere Conda-Umgebung \x27" ++ (w.checkOutputRaw infoCmd).trim ++
                   "\x27 in \x27" ++ out ++ "\x27...") ::
      Event.run (exportCmd ((w.checkOutputRaw infoCmd).trim) out) :: rest := by
  by_cases hc : w.exitCode (exportCmd ((w.checkOutputRaw infoCmd).trim) out) = 0
  · exact ⟨[Event.print ("Umgebung erfolgreich in \x27" ++ out ++ "\x27 gespeichert.")],
      by simp [freeze_conda_environment, freezeWith, h, hc]⟩
  · exact ⟨[Event.print ("Fehler beim Speichern der Conda-Umgebung: " ++
        cpeMessage (exportCmd ((w.checkOutputRaw infoCmd).trim) out)
          (w.exitCode (exportCmd ((w.checkOutputRaw infoCmd).trim) out)))],
      by simp [freeze_conda_environment, freezeWith, h, hc]⟩

/-- Witness for claim C5 at a world whose listing pipeline succeeds and
prints " base" followed by a newline, which strips to "base". -/
theorem freeze_default_resolves_active_witness :
    ∃ rest, (freeze_conda_environment wAllOK none "environment.yml").1 =
      Event.checkOutput infoCmd ::
      Event.print ("Speichere Conda-Umgebung \x27" ++ (wAllOK.checkOutputRaw infoCmd).trim ++
                   "\x27 in \x27" ++ "environment.yml" ++ "\x27...") ::
      Event.run (exportCmd ((wAllOK.checkOutputRaw infoCmd).trim) "environment.yml") :: rest :=
  freeze_default_resolves_active wAllOK "environment.yml" rfl

/-- Claim C6: backup_project is repeatable on the same target directory:
the first call succeeds, leaves the directory in the filesystem, and a
second call on the resulting filesystem succeeds as well; both calls run
the recursive copy command. -/
theorem backup_project_repeatable (w : World) (dirs : List String) (d : String)
    (hm : w.makedirsOSError d = false)
    (hc : w.exitCode (cpCmd d) = 0) :
    (backup_project w dirs d).2.2 = Outcome.ret ∧
    Event.run (cpCmd d) ∈ (backup_project w dirs d).2.1 ∧
    d ∈ (backup_project w dirs d).1 ∧
    (backup_project w (backup_project w dirs d).1 d).2.2 = Outcome.ret ∧
    Event.run (cpCmd d) ∈ (backup_project w (backup_project w dirs d).1 d).2.1 := by
  have key : ∀ fs : List String, (backup_project w fs d).2.2 = Outcome.ret ∧
      Event.run (cpCmd d) ∈ (backup_project w fs d).2.1 ∧ d ∈ (backup_project w fs d).1 := by
    intro fs
    by_cases hd : d ∈ fs <;> simp [backup_project, makedirsFS, hm, hc, hd]
  obtain ⟨a1, a2, a3⟩ := key dirs
  obtain ⟨b1, b2, _⟩ := key (backup_project w dirs d).1
  exact ⟨a1, a2, a3, b1, b2⟩

/-- Witness for claim C6: two consecutive backups into "backups" starting
from an empty filesystem. -/
theorem backup_project_repeatable_witness :
    (backup_project wAllOK [] "backups").2.2 = Outcome.ret ∧
    Event.run (cpCmd "backups") ∈ (backup_project wAllOK [] "backups").2.1 ∧
    "backups" ∈ (backup_project wAllOK [] "backups").1 ∧
    (backup_project wAllOK (backup_project wAllOK [] "backups").1 "backups").2.2 = Outcome.ret ∧
    Event.run (cpCmd "backups") ∈
      (backup_project wAllOK (backup_project wAllOK [] "backups").1 "backups").2.1 :=
  backup_project_repeatable wAllOK [] "backups" rfl rfl

/-- Claim C7: git_push_master invokes exactly one external command, namely
the push to origin master with the upstream flag, and on a zero exit it
returns normally after printing the confirmation message. -/
theorem git_push_master_single_command (w : World) :
    runEvents (git_push_master w).1 = [pushCmd] ∧
    pushCmd = "git push -u origin master" ∧
    (w.exitCode pushCmd = 0 →
      (git_push_master w).2 = Outcome.ret ∧
      Event.print "Repository erfolgreich hochgeladen." ∈ (git_push_master w).1) := by
  refine ⟨?_, rfl, ?_⟩
  · by_cases hc : w.exitCode pushCmd = 0 <;> simp [git_push_master, hc]
  · intro hc
    simp [git_push_master, hc]

set_option maxRecDepth 4096

/-- Claim C8: show_help performs exactly one print of the fixed multi-line
help text and nothing else: no subprocess run, no output capture, no
directory creation, and a normal return. -/
theorem show_help_static :
    show_help = ([Event.print helpText], Outcome.ret) ∧
    runEvents show_help.1 = [] ∧
    checkOutputEvents show_help.1 = [] ∧
    makedirsEvents show_help.1 = [] ∧
    helpText.data.count (Char.ofNat 10) = 7 :=
  ⟨rfl, rfl, rfl, rfl, by decide⟩

/-- Claim C9: in backup_project only a non-zero exit of the copy command is
converted into print-and-exit-1; when os.makedirs itself raises an OSError
the exception propagates uncaught, with no diagnostic print, no exit, and
no copy attempted. -/
theorem backup_makedirs_error_propagates (w w2 : World) (dirs : List String) (d : String)
    (h : w.makedirsOSError d = true)
    (h2m : w2.makedirsOSError d = false)
    (h2c : w2.exitCode (cpCmd d) ≠ 0) :
    backup_project w dirs d = (dirs, [Event.makedirs d], Outcome.raised) ∧
    failsExit1 (backup_project w2 dirs d).2 := by
  constructor
  · simp [backup_project, h]
  · refine failsExit1_mk _ "Fehler beim Erstellen des Backups: "
      " beim Erstellen des Backups: "
      (cpeMessage (cpCmd d) (w2.exitCode (cpCmd d))) ?_ ?_ rfl
    · by_cases hd : d ∈ dirs <;> simp [backup_project, makedirsFS, h2m, h2c, hd]
    · by_cases hd : d ∈ dirs <;> simp [backup_project, makedirsFS, h2m, h2c, hd]

/-- Witness for claim C9: a permission-denied world for the first part and
a failing-copy world for the second. -/
theorem backup_makedirs_error_propagates_witness :
    backup_project wPerm [] "backups" = ([], [Event.makedirs "backups"], Outcome.raised) ∧
    failsExit1 (backup_project wAllFail [] "backups").2 :=
  backup_makedirs_error_propagates wPerm wAllFail [] "backups" rfl rfl (by decide)

/-- Claim C10: with env_name unset, a non-zero exit of the name-resolution
pipeline is caught by the same handler: a diagnostic is printed and the
process terminates with exit code 1, with no export attempted. -/
theorem freeze_resolution_failure_exit1 (w : World) (out : String)
    (h : w.checkOutputExit infoCmd ≠ 0) :
    freeze_conda_environment w none out =
      ([Event.checkOutput infoCmd,
        Event.print ("Fehler beim Speichern der Conda-Umgebung: " ++
                     cpeMessage infoCmd (w.checkOutputExit infoCmd))],
       Outcome.exit 1) ∧
    runEvents (freeze_conda_environment w none out).1 = [] ∧
    failsExit1 (freeze_conda_environment w none out) := by
  refine ⟨by simp [freeze_conda_environment, h], by simp [freeze_conda_environment, h], ?_⟩
  refine failsExit1_mk _ "Fehler beim Speichern der Conda-Umgebung: "
    " beim Speichern der Conda-Umgebung: "
    (cpeMessage infoCmd (w.checkOutputExit infoCmd)) ?_ ?_ rfl <;>
    simp [freeze_conda_environment, h]

/-- Witness for claim C10 at a world where the listing pipeline exits 1. -/
theorem freeze_resolution_failure_exit1_witness :
    freeze_conda_environment wAllFail none "environment.yml" =
      ([Event.checkOutput infoCmd,
        Event.print ("Fehler beim Speichern der Conda-Umgebung: " ++
                     cpeMessage infoCmd (wAllFail.checkOutputExit infoCmd))],
       Outcome.exit 1) ∧
    runEvents (freeze_conda_environment wAllFail none "environment.yml").1 = [] ∧
    failsExit1 (freeze_conda_environment wAllFail none "environment.yml") :=
  freeze_resolution_failure_exit1 wAllFail "environment.yml" (by decide)
